import Mathlib

/-
  Shallow embedding of the Cosmic Hand Gesture Control core
  (src/store.ts, src/components/Scene3D.tsx, src/components/Particles.tsx,
   src/components/FloatingBlock.tsx).

  Conventions:
  * JavaScript numbers are modelled as rationals (ℚ); the code only ever
    compares and combines them with +, -, *, /, abs and <, so ℚ is faithful
    for the claims at hand.
  * `Math.random()` and `Math.random().toString(36)` are external entropy;
    they are modelled as per-frame input streams (`jit`, `pid`, `dupId`).
  * `ray.distanceSqToPoint` (three.js geometry determined by the camera and
    the cursor) is modelled as a per-frame oracle `distSq` assigning each
    block its squared distance to the ray.
  * JavaScript truthiness of `string | null` guards (`if (currentlySelected)`)
    is modelled by `truthy`: `null` and the empty string are falsy.
-/

namespace Cosmic

/-- GestureType from src/store.ts line 3. -/
inductive GestureType where
  | NONE
  | OPEN_PALM
  | PINCH
  | FIST
  | THUMBS_UP
  | WAVE
  | POINTING_UP
deriving DecidableEq, Repr

/-- A `[number, number, number]` triple. -/
structure Vec3 where
  x : ℚ
  y : ℚ
  z : ℚ
deriving DecidableEq, Repr

/-- BlockData from src/store.ts lines 31-37. -/
structure BlockData where
  id : String
  position : Vec3
  rotation : Vec3
  color : String
  scale : Vec3
deriving DecidableEq, Repr

/-- ParticleData from src/store.ts lines 39-44. `createdAt` is a
`Date.now()` timestamp in milliseconds. -/
structure ParticleData where
  id : String
  position : Vec3
  color : String
  createdAt : ℚ
deriving DecidableEq, Repr

/-- The zustand store state from src/store.ts (data fields only;
the actions are modelled as pure functions below). -/
structure AppState where
  handPresent : Bool
  cursorPosition : ℚ × ℚ
  gesture : GestureType
  rotation : ℚ
  blocks : List BlockData
  particles : List ParticleData
  selectedBlockId : Option String
  grabbedBlockId : Option String
  cameraPan : ℚ
deriving DecidableEq, Repr

/-- store.ts line 68: setHandState. -/
def setHandState (present : Bool) (x y : ℚ) (g : GestureType) (rot : ℚ)
    (s : AppState) : AppState :=
  { s with handPresent := present, cursorPosition := (x, y), gesture := g,
           rotation := rot }

/-- store.ts line 70: addBlock appends to the block list. -/
def addBlock (b : BlockData) (s : AppState) : AppState :=
  { s with blocks := s.blocks ++ [b] }

/-- store.ts lines 72-76: removeBlock filters out the id and clears a
selection or grab pointer that equals the removed id. -/
def removeBlock (id : String) (s : AppState) : AppState :=
  { s with
    blocks := s.blocks.filter (fun b => b.id != id),
    selectedBlockId := if s.selectedBlockId = some id then none
                       else s.selectedBlockId,
    grabbedBlockId := if s.grabbedBlockId = some id then none
                      else s.grabbedBlockId }

/-- store.ts lines 78-80: updateBlockPosition (rotation optional). -/
def updateBlockPosition (id : String) (pos : Vec3) (rot : Option Vec3)
    (s : AppState) : AppState :=
  { s with blocks := s.blocks.map (fun b =>
      if b.id = id then { b with position := pos, rotation := rot.getD b.rotation }
      else b) }

/-- store.ts line 82. -/
def setSelectedBlock (id : Option String) (s : AppState) : AppState :=
  { s with selectedBlockId := id }

/-- store.ts line 84. -/
def setGrabbedBlock (id : Option String) (s : AppState) : AppState :=
  { s with grabbedBlockId := id }

/-- One particle produced by triggerExplosion (store.ts lines 90-99):
`position[k] + (Math.random() - 0.5) * 0.5` on each axis, the source color
and the current time.  The entropy of the i-th particle is `jit i` and its
random id is `pid i`. -/
def explosionParticle (pos : Vec3) (color : String) (now : ℚ)
    (pid : ℕ → String) (jit : ℕ → Vec3) (i : ℕ) : ParticleData :=
  { id := pid i,
    position :=
      { x := pos.x + ((jit i).x - 1/2) * (1/2),
        y := pos.y + ((jit i).y - 1/2) * (1/2),
        z := pos.z + ((jit i).z - 1/2) * (1/2) },
    color := color,
    createdAt := now }

/-- store.ts lines 86-102: triggerExplosion pushes `count = 20` particles. -/
def triggerExplosion (pos : Vec3) (color : String) (now : ℚ)
    (pid : ℕ → String) (jit : ℕ → Vec3) (s : AppState) : AppState :=
  { s with particles :=
      s.particles ++ (List.range 20).map (explosionParticle pos color now pid jit) }

/-- store.ts line 104: clearParticles removes every particle with the id. -/
def clearParticles (id : String) (s : AppState) : AppState :=
  { s with particles := s.particles.filter (fun p => p.id != id) }

/-- store.ts line 106. -/
def panCamera (delta : ℚ) (s : AppState) : AppState :=
  { s with cameraPan := s.cameraPan + delta }

/-! ### Wave detection (src/components/Particles.tsx, HandController) -/

/-- Particles.tsx lines 203-204: push the new palm-X sample, then
`if (length > 10) shift()` drops the oldest sample. -/
def pushWaveHistory (hist : List ℚ) (x : ℚ) : List ℚ :=
  let h := hist ++ [x]
  if h.length > 10 then h.tail else h

/-- Particles.tsx lines 238-252: calculateWave returns false for fewer than
5 samples, else compares `|history[0] - history[length-1]|` against 0.4. -/
def calculateWave (history : List ℚ) : Bool :=
  if history.length < 5 then false
  else decide (|history.headD 0 - history.getLastD 0| > 2/5)

/-! ### Particle retirement (src/components/Particles.tsx, Particles) -/

/-- Particles.tsx lines 33-39: one mounted Particles component's per-frame
age check for its own particle `p`; `timeAlive = (Date.now() - createdAt) / 1000`,
and past 2 seconds it calls `clearParticles(p.id)` on the store list. -/
def particleFrame (now : ℚ) (p : ParticleData) (parts : List ParticleData) :
    List ParticleData :=
  if (now - p.createdAt) / 1000 > 2 then parts.filter (fun q => q.id != p.id)
  else parts

/-- One render frame: every mounted particle component (one per particle in
the store list) runs its own age check on the shared list. -/
def particleSweep (now : ℚ) (parts : List ParticleData) : List ParticleData :=
  parts.foldl (fun acc p => particleFrame now p acc) parts

/-! ### Interaction Manager (src/components/Scene3D.tsx, InteractionManager) -/

/-- JavaScript truthiness of a `string | null` value: `null` and the empty
string are falsy (Scene3D.tsx uses guards like `if (currentlySelected && ...)`
and `if (!currentlyGrabbed)`). -/
def truthy : Option String → Bool
  | none => false
  | some str => str != ""

/-- One iteration of the closest-block loop (Scene3D.tsx lines 66-76):
`if (dist < 2 && dist < closestDist)` take this block, where `closestDist`
starts at `Infinity` (modelled by `none`). -/
def closestScan (distSq : BlockData → ℚ) (acc : Option String × Option ℚ)
    (block : BlockData) : Option String × Option ℚ :=
  let dist := distSq block
  let closer : Bool :=
    match acc.2 with
    | none => true
    | some cd => decide (dist < cd)
  if dist < 2 ∧ closer = true then (some block.id, some dist) else acc

/-- Scene3D.tsx lines 50-77: the id of the block closest to the ray, if any
block is within the squared-distance threshold 2.  `distSq` abstracts
`ray.distanceSqToPoint(blockPos)` (external three.js geometry). -/
def closestBlockId (distSq : BlockData → ℚ) (blocks : List BlockData) :
    Option String :=
  (blocks.foldl (closestScan distSq) (none, none)).1

/-- The per-frame external inputs of the interaction step: the ray-distance
oracle and the entropy used by explode (particle ids and jitter) and
duplicate (the fresh random id). -/
structure StepInput where
  distSq : BlockData → ℚ
  now : ℚ
  pid : ℕ → String
  jit : ℕ → Vec3
  dupId : String

/-- The discrete commands the interaction step can issue during one frame. -/
inductive Command where
  | select (id : Option String)
  | grab (id : String)
  | release
  | explode (id : String)
  | duplicate (id : String)
deriving DecidableEq, Repr

/-- Scene3D.tsx lines 85-91: if not holding anything, OPEN_PALM or NONE
selects the closest block when it differs from the current selection.
The guards use the snapshots `curSel`/`curGrab` read at lines 79-80. -/
def selectStep (closestId curSel curGrab : Option String) (g : GestureType)
    (s : AppState) : AppState × List Command :=
  if truthy curGrab = false then
    if g = GestureType.OPEN_PALM ∨ g = GestureType.NONE then
      if closestId ≠ curSel then
        (setSelectedBlock closestId s, [Command.select closestId])
      else (s, [])
    else (s, [])
  else (s, [])

/-- Scene3D.tsx lines 94-96: `if (currentlySelected && gesture === 'PINCH'
&& prevGesture.current !== 'PINCH') setGrabbedBlock(currentlySelected)`. -/
def grabStep (curSel : Option String) (g prev : GestureType) (s : AppState) :
    AppState × List Command :=
  match curSel with
  | some sid =>
    if sid ≠ "" ∧ g = GestureType.PINCH ∧ prev ≠ GestureType.PINCH then
      (setGrabbedBlock (some sid) s, [Command.grab sid])
    else (s, [])
  | none => (s, [])

/-- Scene3D.tsx lines 99-101: OPEN_PALM edge while grabbed clears the grab. -/
def releaseStep (curGrab : Option String) (g prev : GestureType)
    (s : AppState) : AppState × List Command :=
  match curGrab with
  | some gid =>
    if gid ≠ "" ∧ g = GestureType.OPEN_PALM ∧ prev ≠ GestureType.OPEN_PALM then
      (setGrabbedBlock none s, [Command.release])
    else (s, [])
  | none => (s, [])

/-- Scene3D.tsx lines 104-112: FIST edge while selected — find the block in
the frame's block snapshot; if present, trigger the explosion, remove the
block, and clear both pointers (in source order). -/
def explodeStep (inp : StepInput) (blocks : List BlockData)
    (curSel : Option String) (g prev : GestureType) (s : AppState) :
    AppState × List Command :=
  match curSel with
  | some sid =>
    if sid ≠ "" ∧ g = GestureType.FIST ∧ prev ≠ GestureType.FIST then
      match blocks.find? (fun b => b.id == sid) with
      | some block =>
        (setSelectedBlock none (setGrabbedBlock none (removeBlock sid
          (triggerExplosion block.position block.color inp.now inp.pid inp.jit s))),
         [Command.explode sid])
      | none => (s, [])
    else (s, [])
  | none => (s, [])

/-- Scene3D.tsx lines 115-124: THUMBS_UP edge while selected — add a copy of
the found block with a fresh random id and position offset by +1.5 on x. -/
def duplicateStep (inp : StepInput) (blocks : List BlockData)
    (curSel : Option String) (g prev : GestureType) (s : AppState) :
    AppState × List Command :=
  match curSel with
  | some sid =>
    if sid ≠ "" ∧ g = GestureType.THUMBS_UP ∧ prev ≠ GestureType.THUMBS_UP then
      match blocks.find? (fun b => b.id == sid) with
      | some block =>
        (addBlock { block with
            id := inp.dupId,
            position := { x := block.position.x + 3/2,
                          y := block.position.y,
                          z := block.position.z } } s,
         [Command.duplicate sid])
      | none => (s, [])
    else (s, [])
  | none => (s, [])

/-- Scene3D.tsx lines 30-128: one `useFrame` tick of the InteractionManager.
`prev` is the `prevGesture` ref.  When no hand is present the pointers are
cleared and the frame returns early (in particular `prevGesture` is NOT
updated, matching the early `return` before line 126).  Otherwise the five
sub-steps run in source order on the evolving state, with all guards reading
the snapshots taken before any mutation (lines 79-80) and the frame's block
snapshot.  Returns (new prevGesture, new state, commands issued). -/
def interactionStep (inp : StepInput) (prev : GestureType) (s0 : AppState) :
    GestureType × AppState × List Command :=
  if s0.handPresent = false then
    (prev, setGrabbedBlock none (setSelectedBlock none s0), [])
  else
    let g := s0.gesture
    let closestId := closestBlockId inp.distSq s0.blocks
    let curSel := s0.selectedBlockId
    let curGrab := s0.grabbedBlockId
    let r1 := selectStep closestId curSel curGrab g s0
    let r2 := grabStep curSel g prev r1.1
    let r3 := releaseStep curGrab g prev r2.1
    let r4 := explodeStep inp s0.blocks curSel g prev r3.1
    let r5 := duplicateStep inp s0.blocks curSel g prev r4.1
    (g, r5.1, r1.2 ++ r2.2 ++ r3.2 ++ r4.2 ++ r5.2)

/-- One camera/classifier-plus-render frame for whole-run statements:
the HandController writes the hand state (src/components/Particles.tsx
line 228 / 231), then the InteractionManager tick runs. -/
structure Frame where
  present : Bool
  cx : ℚ
  cy : ℚ
  gesture : GestureType
  wrot : ℚ
  inp : StepInput

/-- Process one frame: classifier write followed by the interaction tick. -/
def processFrame (f : Frame) (prev : GestureType) (s : AppState) :
    GestureType × AppState × List Command :=
  interactionStep f.inp prev (setHandState f.present f.cx f.cy f.gesture f.wrot s)

/-- Run a list of frames, collecting all commands issued. -/
def runFrames : List Frame → GestureType → AppState →
    GestureType × AppState × List Command
  | [], prev, s => (prev, s, [])
  | f :: rest, prev, s =>
    let r := processFrame f prev s
    let rr := runFrames rest r.1 r.2.1
    (rr.1, rr.2.1, r.2.2 ++ rr.2.2)

/-- Is a command a grab? -/
def isGrabCmd : Command → Bool
  | Command.grab _ => true
  | _ => false

/-- Number of grab commands in a command list. -/
def grabCount (cs : List Command) : ℕ :=
  cs.countP isGrabCmd

/-- The edge-triggered commands of §4.2 step 3 (everything except the
continuous selection update). -/
def isEdgeCmd : Command → Bool
  | Command.select _ => false
  | _ => true

/-! ### Reachability

States reachable by the program: from a start state with both pointers
null (the store's initial state has `selectedBlockId = grabbedBlockId = null`),
closed under the transitions the program actually performs — the
HandController store writes (`setHandState`, `panCamera`), the
InteractionManager frame, the FloatingBlock drag write
(`updateBlockPosition`) and the Particles retirement (`clearParticles`).
The first component tracks the `prevGesture` ref. -/
inductive Reachable : GestureType → AppState → Prop where
  | init (p : GestureType) (s : AppState) :
      s.selectedBlockId = none → s.grabbedBlockId = none → Reachable p s
  | handUpdate (p : GestureType) (s : AppState) (present : Bool) (x y : ℚ)
      (g : GestureType) (rot : ℚ) (h : Reachable p s) :
      Reachable p (setHandState present x y g rot s)
  | pan (p : GestureType) (s : AppState) (d : ℚ) (h : Reachable p s) :
      Reachable p (panCamera d s)
  | drag (p : GestureType) (s : AppState) (id : String) (pos : Vec3)
      (rot : Option Vec3) (h : Reachable p s) :
      Reachable p (updateBlockPosition id pos rot s)
  | sweep (p : GestureType) (s : AppState) (id : String) (h : Reachable p s) :
      Reachable p (clearParticles id s)
  | frame (p : GestureType) (s : AppState) (inp : StepInput)
      (h : Reachable p s) :
      Reachable (interactionStep inp p s).1 (interactionStep inp p s).2.1

/-- The grab/selection coherence invariant: either nothing is grabbed, or the
grabbed id is a nonempty string and the selection points at the same id. -/
def GrabCoherent (s : AppState) : Prop :=
  s.grabbedBlockId = none ∨
  ∃ sid, sid ≠ "" ∧ s.grabbedBlockId = some sid ∧ s.selectedBlockId = some sid

/-- The no-dangling-pointer invariant: each non-null pointer names a block
present in the collection. -/
def PointersLive (s : AppState) : Prop :=
  (∀ sid, s.selectedBlockId = some sid → ∃ b ∈ s.blocks, b.id = sid) ∧
  (∀ gid, s.grabbedBlockId = some gid → ∃ b ∈ s.blocks, b.id = gid)

/-! ### Concrete objects used by witnesses and counterexamples -/

def idA : String := "a"

def idD : String := "d"

def idQ : String := "q"

def bA : BlockData :=
  { id := idA, position := { x := 0, y := 0, z := 0 },
    rotation := { x := 0, y := 0, z := 0 }, color := "#60a5fa",
    scale := { x := 1, y := 1, z := 1 } }

/-- An input whose ray passes through `bA` (distance 0 to every block). -/
def inpNear : StepInput :=
  { distSq := fun _ => 0, now := 0, pid := fun _ => "p",
    jit := fun _ => { x := 1/2, y := 1/2, z := 1/2 }, dupId := idD }

/-- An input whose ray misses every block (distance 100). -/
def inpFar : StepInput :=
  { inpNear with distSq := fun _ => 100 }

def sBase : AppState :=
  { handPresent := true, cursorPosition := (0, 0),
    gesture := GestureType.NONE, rotation := 0, blocks := [bA],
    particles := [], selectedBlockId := none, grabbedBlockId := none,
    cameraPan := 0 }

def sSel : AppState := { sBase with selectedBlockId := some idA }

def sRegrab : AppState :=
  { sSel with gesture := GestureType.PINCH, grabbedBlockId := some idA }

def sRelease : AppState :=
  { sSel with gesture := GestureType.OPEN_PALM, grabbedBlockId := some idA }

def sFist : AppState := { sSel with gesture := GestureType.FIST }

def sThumb : AppState := { sSel with gesture := GestureType.THUMBS_UP }

def sAbsent : AppState :=
  { sSel with handPresent := false, grabbedBlockId := some idA }

def pQ : ParticleData :=
  { id := idQ, position := { x := 0, y := 0, z := 0 }, color := "#fff",
    createdAt := 0 }

/-- A hand-present frame with the given gesture, ray hitting `bA`. -/
def frameOf (g : GestureType) : Frame :=
  { present := true, cx := 0, cy := 0, gesture := g, wrot := 0, inp := inpNear }

/-! ### Basic lemmas about the sub-steps -/

theorem truthy_some {sid : String} (h : sid ≠ "") : truthy (some sid) = true := by
  simp [truthy, h]

theorem selectStep_id_of_gesture {c cs cg : Option String} {g : GestureType}
    {s : AppState} (h1 : g ≠ GestureType.OPEN_PALM) (h2 : g ≠ GestureType.NONE) :
    selectStep c cs cg g s = (s, []) := by
  simp [selectStep, h1, h2]

theorem selectStep_id_of_grabbed {c cs cg : Option String} {g : GestureType}
    {s : AppState} (h : truthy cg = true) :
    selectStep c cs cg g s = (s, []) := by
  simp [selectStep, h]

theorem grabStep_id {cs : Option String} {g p : GestureType} {s : AppState}
    (h : g ≠ GestureType.PINCH) : grabStep cs g p s = (s, []) := by
  cases cs <;> simp [grabStep, h]

theorem releaseStep_id {cg : Option String} {g p : GestureType} {s : AppState}
    (h : g ≠ GestureType.OPEN_PALM) : releaseStep cg g p s = (s, []) := by
  cases cg <;> simp [releaseStep, h]

theorem releaseStep_id_of_free {cg : Option String} {g p : GestureType}
    {s : AppState} (h : truthy cg = false) : releaseStep cg g p s = (s, []) := by
  cases cg with
  | none => simp [releaseStep]
  | some gid =>
    have : gid = "" := by simpa [truthy] using h
    simp [releaseStep, this]

theorem explodeStep_id {inp : StepInput} {bl : List BlockData}
    {cs : Option String} {g p : GestureType} {s : AppState}
    (h : g ≠ GestureType.FIST) : explodeStep inp bl cs g p s = (s, []) := by
  cases cs <;> simp [explodeStep, h]

theorem duplicateStep_id {inp : StepInput} {bl : List BlockData}
    {cs : Option String} {g p : GestureType} {s : AppState}
    (h : g ≠ GestureType.THUMBS_UP) : duplicateStep inp bl cs g p s = (s, []) := by
  cases cs <;> simp [duplicateStep, h]

/-! ### Per-gesture characterizations of the interaction step -/

theorem interactionStep_absent {inp : StepInput} {p : GestureType}
    {s : AppState} (hp : s.handPresent = false) :
    interactionStep inp p s =
      (p, { s with selectedBlockId := none, grabbedBlockId := none }, []) := by
  simp [interactionStep, hp, setSelectedBlock, setGrabbedBlock]

theorem interactionStep_none {inp : StepInput} {p : GestureType} {s : AppState}
    (hp : s.handPresent = true) (hg : s.gesture = GestureType.NONE) :
    interactionStep inp p s =
      (GestureType.NONE,
       (selectStep (closestBlockId inp.distSq s.blocks) s.selectedBlockId
         s.grabbedBlockId GestureType.NONE s).1,
       (selectStep (closestBlockId inp.distSq s.blocks) s.selectedBlockId
         s.grabbedBlockId GestureType.NONE s).2) := by
  simp only [interactionStep, hp, hg, Bool.true_eq_false, if_false]
  rw [grabStep_id (by simp), releaseStep_id (by simp),
      explodeStep_id (by simp), duplicateStep_id (by simp)]
  simp

theorem interactionStep_pinch {inp : StepInput} {p : GestureType} {s : AppState}
    (hp : s.handPresent = true) (hg : s.gesture = GestureType.PINCH) :
    interactionStep inp p s =
      (GestureType.PINCH,
       (grabStep s.selectedBlockId GestureType.PINCH p s).1,
       (grabStep s.selectedBlockId GestureType.PINCH p s).2) := by
  simp only [interactionStep, hp, hg, Bool.true_eq_false, if_false]
  rw [selectStep_id_of_gesture (by simp) (by simp)]
  simp only
  rw [releaseStep_id (by simp), explodeStep_id (by simp),
      duplicateStep_id (by simp)]
  simp

theorem interactionStep_palm_grabbed {inp : StepInput} {p : GestureType}
    {s : AppState} (hp : s.handPresent = true)
    (hg : s.gesture = GestureType.OPEN_PALM)
    (ht : truthy s.grabbedBlockId = true) :
    interactionStep inp p s =
      (GestureType.OPEN_PALM,
       (releaseStep s.grabbedBlockId GestureType.OPEN_PALM p s).1,
       (releaseStep s.grabbedBlockId GestureType.OPEN_PALM p s).2) := by
  simp only [interactionStep, hp, hg, Bool.true_eq_false, if_false]
  rw [selectStep_id_of_grabbed ht]
  simp only
  rw [grabStep_id (by simp)]
  simp only
  rw [explodeStep_id (by simp), duplicateStep_id (by simp)]
  simp

theorem interactionStep_palm_free {inp : StepInput} {p : GestureType}
    {s : AppState} (hp : s.handPresent = true)
    (hg : s.gesture = GestureType.OPEN_PALM)
    (ht : truthy s.grabbedBlockId = false) :
    interactionStep inp p s =
      (GestureType.OPEN_PALM,
       (selectStep (closestBlockId inp.distSq s.blocks) s.selectedBlockId
         s.grabbedBlockId GestureType.OPEN_PALM s).1,
       (selectStep (closestBlockId inp.distSq s.blocks) s.selectedBlockId
         s.grabbedBlockId GestureType.OPEN_PALM s).2) := by
  simp only [interactionStep, hp, hg, Bool.true_eq_false, if_false]
  rw [grabStep_id (by simp), releaseStep_id_of_free ht,
      explodeStep_id (by simp), duplicateStep_id (by simp)]
  simp

theorem interactionStep_fist {inp : StepInput} {p : GestureType} {s : AppState}
    (hp : s.handPresent = true) (hg : s.gesture = GestureType.FIST) :
    interactionStep inp p s =
      (GestureType.FIST,
       (explodeStep inp s.blocks s.selectedBlockId GestureType.FIST p s).1,
       (explodeStep inp s.blocks s.selectedBlockId GestureType.FIST p s).2) := by
  simp only [interactionStep, hp, hg, Bool.true_eq_false, if_false]
  rw [selectStep_id_of_gesture (by simp) (by simp)]
  simp only
  rw [grabStep_id (by simp), releaseStep_id (by simp)]
  simp only
  rw [duplicateStep_id (by simp)]
  simp

theorem interactionStep_thumbs {inp : StepInput} {p : GestureType}
    {s : AppState} (hp : s.handPresent = true)
    (hg : s.gesture = GestureType.THUMBS_UP) :
    interactionStep inp p s =
      (GestureType.THUMBS_UP,
       (duplicateStep inp s.blocks s.selectedBlockId GestureType.THUMBS_UP p s).1,
       (duplicateStep inp s.blocks s.selectedBlockId GestureType.THUMBS_UP p s).2) := by
  simp only [interactionStep, hp, hg, Bool.true_eq_false, if_false]
  rw [selectStep_id_of_gesture (by simp) (by simp)]
  simp only
  rw [grabStep_id (by simp), releaseStep_id (by simp), explodeStep_id (by simp)]
  simp

theorem interactionStep_inert {inp : StepInput} {p : GestureType} {s : AppState}
    (hp : s.handPresent = true)
    (hg : s.gesture = GestureType.WAVE ∨ s.gesture = GestureType.POINTING_UP) :
    interactionStep inp p s = (s.gesture, s, []) := by
  rcases hg with hg | hg <;>
  · simp only [interactionStep, hp, hg, Bool.true_eq_false, if_false]
    rw [selectStep_id_of_gesture (by simp) (by simp)]
    simp only
    rw [grabStep_id (by simp), releaseStep_id (by simp),
        explodeStep_id (by simp), duplicateStep_id (by simp)]
    simp

/-! ### Which sub-steps can issue a grab command -/

theorem grab_not_mem_selectStep (sid : String) (c cs cg : Option String)
    (g : GestureType) (s : AppState) :
    Command.grab sid ∉ (selectStep c cs cg g s).2 := by
  unfold selectStep
  split_ifs <;> simp

theorem grab_not_mem_releaseStep (sid : String) (cg : Option String)
    (g p : GestureType) (s : AppState) :
    Command.grab sid ∉ (releaseStep cg g p s).2 := by
  cases cg with
  | none => simp [releaseStep]
  | some gid =>
    simp only [releaseStep]
    split_ifs <;> simp

theorem grab_not_mem_explodeStep (sid : String) (inp : StepInput)
    (bl : List BlockData) (cs : Option String) (g p : GestureType)
    (s : AppState) :
    Command.grab sid ∉ (explodeStep inp bl cs g p s).2 := by
  cases cs with
  | none => simp [explodeStep]
  | some t =>
    simp only [explodeStep]
    split_ifs
    · cases hf : bl.find? (fun b => b.id == t) <;> simp [hf]
    · simp

theorem grab_not_mem_duplicateStep (sid : String) (inp : StepInput)
    (bl : List BlockData) (cs : Option String) (g p : GestureType)
    (s : AppState) :
    Command.grab sid ∉ (duplicateStep inp bl cs g p s).2 := by
  cases cs with
  | none => simp [duplicateStep]
  | some t =>
    simp only [duplicateStep]
    split_ifs
    · cases hf : bl.find? (fun b => b.id == t) <;> simp [hf]
    · simp

theorem grab_mem_grabStep_iff (sid : String) (cs : Option String)
    (g p : GestureType) (s : AppState) :
    Command.grab sid ∈ (grabStep cs g p s).2 ↔
      (cs = some sid ∧ sid ≠ "" ∧ g = GestureType.PINCH ∧
       p ≠ GestureType.PINCH) := by
  cases cs with
  | none => simp [grabStep]
  | some t =>
    simp only [grabStep]
    split_ifs with h
    · simp only [List.mem_singleton, Command.grab.injEq, Option.some.injEq]
      constructor
      · rintro rfl
        exact ⟨rfl, h⟩
      · rintro ⟨rfl, _⟩
        rfl
    · constructor
      · intro hmem
        exact absurd hmem (List.not_mem_nil _)
      · rintro ⟨heq, h1, h2, h3⟩
        injection heq with heq'
        subst heq'
        exact absurd ⟨h1, h2, h3⟩ h

/-- Claim C4 (amended form): a grab command fires on a frame exactly when the
hand is present, an object is selected (a non-null, non-empty id), the
gesture is PINCH and the previous gesture was not PINCH — the source has no
"nothing currently grabbed" precondition. -/
theorem grab_command_iff (inp : StepInput) (p : GestureType) (s : AppState)
    (sid : String) :
    Command.grab sid ∈ (interactionStep inp p s).2.2 ↔
      (s.handPresent = true ∧ s.selectedBlockId = some sid ∧ sid ≠ "" ∧
       s.gesture = GestureType.PINCH ∧ p ≠ GestureType.PINCH) := by
  by_cases hp : s.handPresent = true
  · cases hge : s.gesture with
    | NONE =>
      rw [interactionStep_none hp hge]
      simp [grab_not_mem_selectStep, hge, hp]
    | OPEN_PALM =>
      cases ht : truthy s.grabbedBlockId with
      | false =>
        rw [interactionStep_palm_free hp hge ht]
        simp [grab_not_mem_selectStep, hge, hp]
      | true =>
        rw [interactionStep_palm_grabbed hp hge ht]
        simp [grab_not_mem_releaseStep, hge, hp]
    | PINCH =>
      rw [interactionStep_pinch hp hge]
      simp only
      rw [grab_mem_grabStep_iff]
      simp [hp, hge]
    | FIST =>
      rw [interactionStep_fist hp hge]
      simp [grab_not_mem_explodeStep, hge, hp]
    | THUMBS_UP =>
      rw [interactionStep_thumbs hp hge]
      simp [grab_not_mem_duplicateStep, hge, hp]
    | WAVE =>
      rw [interactionStep_inert hp (Or.inl hge)]
      simp [hge]
    | POINTING_UP =>
      rw [interactionStep_inert hp (Or.inr hge)]
      simp [hge]
  · have hp' : s.handPresent = false := by
      revert hp; cases s.handPresent <;> simp
    rw [interactionStep_absent hp']
    simp [hp']

/-- Claim C4 counterexample: in a state where a block is both selected and
grabbed, a PINCH rising edge still fires a grab command — the code checks
only `currentlySelected`, never `currentlyGrabbed`. -/
theorem pinch_regrab_fires :
    sRegrab.grabbedBlockId = some idA ∧
    Command.grab idA ∈ (interactionStep inpFar GestureType.WAVE sRegrab).2.2 := by
  exact ⟨rfl, by decide⟩

/-- Claim C7: on a frame with no hand present, both pointers are null after
the step, no command is issued, and the clear is idempotent. -/
theorem hand_absent_clears (inp inp2 : StepInput) (p : GestureType)
    (s : AppState) (h : s.handPresent = false) :
    (interactionStep inp p s).2.1.selectedBlockId = none ∧
    (interactionStep inp p s).2.1.grabbedBlockId = none ∧
    (interactionStep inp p s).2.2 = [] ∧
    (interactionStep inp2 p (interactionStep inp p s).2.1).2.1 =
      (interactionStep inp p s).2.1 := by
  rw [interactionStep_absent h]
  simp only
  have h2 : ({ s with selectedBlockId := none, grabbedBlockId := none } : AppState).handPresent = false := h
  rw [interactionStep_absent h2]
  simp

/-- Witness for C7 at a concrete hand-absent state. -/
theorem hand_absent_clears_w :
    (interactionStep inpNear GestureType.WAVE sAbsent).2.1.selectedBlockId = none ∧
    (interactionStep inpNear GestureType.WAVE sAbsent).2.1.grabbedBlockId = none ∧
    (interactionStep inpNear GestureType.WAVE sAbsent).2.2 = [] ∧
    (interactionStep inpFar GestureType.WAVE
      (interactionStep inpNear GestureType.WAVE sAbsent).2.1).2.1 =
      (interactionStep inpNear GestureType.WAVE sAbsent).2.1 :=
  hand_absent_clears inpNear inpFar GestureType.WAVE sAbsent rfl

/-- Claim C6: an OPEN_PALM rising edge while an object is grabbed sets the
grab pointer to null and changes nothing else — the resulting state is
exactly the old state with `grabbedBlockId := none`, and the only command
is the release. -/
theorem release_clears_grab_only (inp : StepInput) (p : GestureType)
    (s : AppState) (gid : String)
    (hp : s.handPresent = true) (hg : s.gesture = GestureType.OPEN_PALM)
    (he : p ≠ GestureType.OPEN_PALM)
    (hgr : s.grabbedBlockId = some gid) (hne : gid ≠ "") :
    interactionStep inp p s =
      (GestureType.OPEN_PALM, { s with grabbedBlockId := none },
       [Command.release]) := by
  have ht : truthy s.grabbedBlockId = true := by
    rw [hgr]; exact truthy_some hne
  rw [interactionStep_palm_grabbed hp hg ht, hgr]
  simp [releaseStep, hne, he, setGrabbedBlock]

/-- Witness for C6 at a concrete grabbed state. -/
theorem release_clears_grab_only_w :
    interactionStep inpNear GestureType.PINCH sRelease =
      (GestureType.OPEN_PALM, { sRelease with grabbedBlockId := none },
       [Command.release]) :=
  release_clears_grab_only inpNear GestureType.PINCH sRelease idA rfl rfl
    (by decide) rfl (by decide)

/-! ### Wave detection claims -/

/-- Claim C8 counterexample: a buffer with fewer than 5 samples never fires,
even when the first/last span exceeds 0.4 — so the claim that for every
buffer state the wave fires exactly when the span exceeds 0.4 fails at the
buffer [0, 0.5]. -/
theorem wave_short_buffer_cex :
    calculateWave [0, 1/2] = false ∧ |(0 : ℚ) - 1/2| > 2/5 := by
  refine ⟨rfl, ?_⟩
  rw [abs_sub_comm, abs_of_nonneg (by norm_num)]
  norm_num

/-- Claim C8 (amended): the history buffer keeps the 10 most recent samples
(the result is a suffix of the pushed stream of length `min (n+1) 10`, so the
oldest sample is dropped on overflow), and the wave fires exactly when the
buffer holds at least 5 samples AND the first/last span exceeds 0.4; the
spec's two example histories evaluate as stated. -/
theorem wave_detection_amended :
    (∀ (hist : List ℚ) (x : ℚ), hist.length ≤ 10 →
      (pushWaveHistory hist x).length = min (hist.length + 1) 10 ∧
      pushWaveHistory hist x =
        (hist ++ [x]).drop (hist.length + 1 - min (hist.length + 1) 10)) ∧
    (∀ history : List ℚ, calculateWave history = true ↔
      (5 ≤ history.length ∧
       |history.headD 0 - history.getLastD 0| > 2/5)) ∧
    calculateWave [1/10, 3/20, 1/5, 3/10, 11/20] = true ∧
    calculateWave [1/10, 3/20, 1/5, 1/4, 3/10] = false := by
  refine ⟨?_, ?_, ?_, ?_⟩
  · intro hist x hlen
    unfold pushWaveHistory
    by_cases h10 : hist.length = 10
    · have hgt : (hist ++ [x]).length > 10 := by simp [h10]
      rw [if_pos hgt]
      refine ⟨?_, ?_⟩
      · simp [h10]
      · have he : hist.length + 1 - min (hist.length + 1) 10 = 1 := by omega
        rw [he, List.drop_one]
    · have hlt : hist.length < 10 := by omega
      have hng : ¬ (hist ++ [x]).length > 10 := by
        simp only [List.length_append, List.length_singleton]
        omega
      rw [if_neg hng]
      refine ⟨?_, ?_⟩
      · simp
        omega
      · have he : hist.length + 1 - min (hist.length + 1) 10 = 0 := by omega
        rw [he, List.drop_zero]
  · intro history
    unfold calculateWave
    by_cases h5 : history.length < 5
    · rw [if_pos h5]
      constructor
      · intro h
        exact absurd h (by simp)
      · rintro ⟨hlen, _⟩
        omega
    · rw [if_neg h5]
      simp only [decide_eq_true_eq]
      constructor
      · intro h
        exact ⟨by omega, h⟩
      · rintro ⟨_, h⟩
        exact h
  · unfold calculateWave
    rw [if_neg (by simp), decide_eq_true_eq]
    show |(1/10 : ℚ) - 11/20| > 2/5
    rw [abs_sub_comm, abs_of_nonneg (by norm_num)]
    norm_num
  · unfold calculateWave
    rw [if_neg (by simp), decide_eq_false_iff_not]
    show ¬ (|(1/10 : ℚ) - 3/10| > 2/5)
    rw [abs_sub_comm, abs_of_nonneg (by norm_num)]
    norm_num

/-- Witness for the amended C8 at a full (length-10) buffer. -/
theorem wave_detection_amended_w :
    (pushWaveHistory [(1:ℚ), 2, 3, 4, 5, 6, 7, 8, 9, 10] 11).length =
      min ([(1:ℚ), 2, 3, 4, 5, 6, 7, 8, 9, 10].length + 1) 10 ∧
    pushWaveHistory [(1:ℚ), 2, 3, 4, 5, 6, 7, 8, 9, 10] 11 =
      ([(1:ℚ), 2, 3, 4, 5, 6, 7, 8, 9, 10] ++ [11]).drop
        ([(1:ℚ), 2, 3, 4, 5, 6, 7, 8, 9, 10].length + 1 -
         min ([(1:ℚ), 2, 3, 4, 5, 6, 7, 8, 9, 10].length + 1) 10) :=
  wave_detection_amended.1 [(1:ℚ), 2, 3, 4, 5, 6, 7, 8, 9, 10] 11 (by decide)

/-! ### Explode and duplicate claims -/

/-- Claim C3: on a FIST rising edge while the selected block exists, the
block is removed, both pointers become null, and exactly 20 particles are
spawned, each within ±0.25 of the block's position per axis and carrying
its color (`Math.random()` values lie in [0, 1)). -/
theorem explode_removes_and_spawns (inp : StepInput) (p : GestureType)
    (s : AppState) (sid : String) (b : BlockData)
    (hp : s.handPresent = true)
    (hg : s.gesture = GestureType.FIST)
    (he : p ≠ GestureType.FIST)
    (hsel : s.selectedBlockId = some sid)
    (hne : sid ≠ "")
    (hfind : s.blocks.find? (fun blk => blk.id == sid) = some b)
    (hjit : ∀ i, 0 ≤ (inp.jit i).x ∧ (inp.jit i).x < 1 ∧
      0 ≤ (inp.jit i).y ∧ (inp.jit i).y < 1 ∧
      0 ≤ (inp.jit i).z ∧ (inp.jit i).z < 1) :
    (∀ b2 ∈ (interactionStep inp p s).2.1.blocks, b2.id ≠ sid) ∧
    (interactionStep inp p s).2.1.selectedBlockId = none ∧
    (interactionStep inp p s).2.1.grabbedBlockId = none ∧
    ∃ L : List ParticleData,
      (interactionStep inp p s).2.1.particles = s.particles ++ L ∧
      L.length = 20 ∧
      ∀ q ∈ L, q.color = b.color ∧
        |q.position.x - b.position.x| ≤ 1/4 ∧
        |q.position.y - b.position.y| ≤ 1/4 ∧
        |q.position.z - b.position.z| ≤ 1/4 := by
  have hstep : (interactionStep inp p s).2.1 =
      setSelectedBlock none (setGrabbedBlock none (removeBlock sid
        (triggerExplosion b.position b.color inp.now inp.pid inp.jit s))) := by
    rw [interactionStep_fist hp hg]
    simp only
    rw [hsel]
    simp only [explodeStep]
    rw [if_pos (by exact ⟨hne, by simp, he⟩), hfind]
  rw [hstep]
  refine ⟨?_, rfl, rfl, ?_⟩
  · intro b2 hb2
    simp only [setSelectedBlock, setGrabbedBlock, removeBlock,
      triggerExplosion, List.mem_filter, bne_iff_ne] at hb2
    exact hb2.2
  · refine ⟨(List.range 20).map
      (explosionParticle b.position b.color inp.now inp.pid inp.jit),
      rfl, by simp, ?_⟩
    intro q hq
    rcases List.mem_map.1 hq with ⟨i, _, rfl⟩
    obtain ⟨h0x, h1x, h0y, h1y, h0z, h1z⟩ := hjit i
    refine ⟨rfl, ?_, ?_, ?_⟩ <;>
    · simp only [explosionParticle]
      rw [abs_le]
      constructor <;> nlinarith [h0x, h1x, h0y, h1y, h0z, h1z]

/-- Witness for C3 at a concrete FIST edge on the selected block `bA`. -/
theorem explode_removes_and_spawns_w :
    (∀ b2 ∈ (interactionStep inpNear GestureType.NONE sFist).2.1.blocks,
      b2.id ≠ idA) ∧
    (interactionStep inpNear GestureType.NONE sFist).2.1.selectedBlockId = none ∧
    (interactionStep inpNear GestureType.NONE sFist).2.1.grabbedBlockId = none ∧
    ∃ L : List ParticleData,
      (interactionStep inpNear GestureType.NONE sFist).2.1.particles =
        sFist.particles ++ L ∧
      L.length = 20 ∧
      ∀ q ∈ L, q.color = bA.color ∧
        |q.position.x - bA.position.x| ≤ 1/4 ∧
        |q.position.y - bA.position.y| ≤ 1/4 ∧
        |q.position.z - bA.position.z| ≤ 1/4 :=
  explode_removes_and_spawns inpNear GestureType.NONE sFist idA bA rfl rfl
    (by decide) rfl (by decide) rfl
    (by intro i; simp only [inpNear]; norm_num)

/-- Claim C5: on a THUMBS_UP rising edge while the selected block exists,
one new block is appended whose id is the fresh random token (hence differs
from the source id whenever the token is fresh), whose color and scale are
the source's, and whose position is the source position plus (1.5, 0, 0);
the source block itself is unchanged and still present. -/
theorem duplicate_adds_offset_copy (inp : StepInput) (p : GestureType)
    (s : AppState) (sid : String) (b : BlockData)
    (hp : s.handPresent = true)
    (hg : s.gesture = GestureType.THUMBS_UP)
    (he : p ≠ GestureType.THUMBS_UP)
    (hsel : s.selectedBlockId = some sid)
    (hne : sid ≠ "")
    (hfind : s.blocks.find? (fun blk => blk.id == sid) = some b)
    (hfresh : inp.dupId ≠ b.id) :
    ∃ nb : BlockData,
      (interactionStep inp p s).2.1.blocks = s.blocks ++ [nb] ∧
      nb.id = inp.dupId ∧ nb.id ≠ b.id ∧
      nb.color = b.color ∧ nb.scale = b.scale ∧
      nb.position.x = b.position.x + 3/2 ∧
      nb.position.y = b.position.y ∧
      nb.position.z = b.position.z ∧
      b ∈ (interactionStep inp p s).2.1.blocks := by
  have hstep : (interactionStep inp p s).2.1 =
      addBlock { b with
        id := inp.dupId,
        position := { x := b.position.x + 3/2, y := b.position.y, z := b.position.z } } s := by
    rw [interactionStep_thumbs hp hg]
    simp only
    rw [hsel]
    simp only [duplicateStep]
    rw [if_pos (by exact ⟨hne, by simp, he⟩), hfind]
  rw [hstep]
  refine ⟨{ b with
    id := inp.dupId,
    position := { x := b.position.x + 3/2, y := b.position.y, z := b.position.z } },
    rfl, rfl, hfresh, rfl, rfl, rfl, rfl, rfl, ?_⟩
  exact List.mem_append_left _ (List.mem_of_find?_eq_some hfind)

/-- Witness for C5 at a concrete THUMBS_UP edge on the selected block `bA`. -/
theorem duplicate_adds_offset_copy_w :
    ∃ nb : BlockData,
      (interactionStep inpNear GestureType.NONE sThumb).2.1.blocks =
        sThumb.blocks ++ [nb] ∧
      nb.id = inpNear.dupId ∧ nb.id ≠ bA.id ∧
      nb.color = bA.color ∧ nb.scale = bA.scale ∧
      nb.position.x = bA.position.x + 3/2 ∧
      nb.position.y = bA.position.y ∧
      nb.position.z = bA.position.z ∧
      bA ∈ (interactionStep inpNear GestureType.NONE sThumb).2.1.blocks :=
  duplicate_adds_offset_copy inpNear GestureType.NONE sThumb idA bA rfl rfl
    (by decide) rfl (by decide) rfl (by decide)

/-! ### Particle retirement claims -/

theorem mem_particleFrame {now : ℚ} {p q : ParticleData}
    {parts : List ParticleData} :
    q ∈ particleFrame now p parts ↔
      (q ∈ parts ∧ ((now - p.createdAt) / 1000 > 2 → q.id ≠ p.id)) := by
  unfold particleFrame
  split_ifs with h
  · simp [List.mem_filter, bne_iff_ne, h]
  · simp [h]

theorem mem_particleFold (now : ℚ) (q : ParticleData)
    (l : List ParticleData) :
    ∀ acc : List ParticleData,
      (q ∈ l.foldl (fun a p => particleFrame now p a) acc ↔
        (q ∈ acc ∧ ∀ p ∈ l, (now - p.createdAt) / 1000 > 2 → q.id ≠ p.id)) := by
  induction l with
  | nil =>
    intro acc
    simp
  | cons p l ih =>
    intro acc
    simp only [List.foldl_cons]
    rw [ih (particleFrame now p acc), mem_particleFrame,
      List.forall_mem_cons]
    tauto

theorem mem_particleSweep (now : ℚ) (q : ParticleData)
    (parts : List ParticleData) :
    q ∈ particleSweep now parts ↔
      (q ∈ parts ∧
       ∀ p ∈ parts, (now - p.createdAt) / 1000 > 2 → q.id ≠ p.id) :=
  mem_particleFold now q parts parts

/-- Claim C9: a particle spawned at time t0 (milliseconds) survives every
per-particle age check run at t0 + 1.9 s and is removed by the sweep at
t0 + 2.1 s, independently of the other particles' spawn times (particle ids
are assumed practically unique, as the random tokens are). -/
theorem particle_retirement (parts : List ParticleData) (p : ParticleData)
    (t0 : ℚ) (hmem : p ∈ parts) (ht : p.createdAt = t0)
    (huniq : ∀ q ∈ parts, q.id = p.id → q = p) :
    p ∈ particleSweep (t0 + 1900) parts ∧
    p ∉ particleSweep (t0 + 2100) parts := by
  constructor
  · rw [mem_particleSweep]
    refine ⟨hmem, ?_⟩
    intro q hq hexp hid
    have hqp : q = p := huniq q hq hid.symm
    rw [hqp, ht] at hexp
    have h19 : t0 + 1900 - t0 = 1900 := by ring
    rw [h19] at hexp
    norm_num at hexp
  · rw [mem_particleSweep]
    rintro ⟨_, hall⟩
    have hc : (t0 + 2100 - p.createdAt) / 1000 > 2 := by
      rw [ht]
      have h21 : t0 + 2100 - t0 = 2100 := by ring
      rw [h21]
      norm_num
    exact hall p hmem hc rfl

/-- Witness for C9 at a concrete particle spawned at time 0. -/
theorem particle_retirement_w :
    pQ ∈ particleSweep (0 + 1900) [pQ] ∧
    pQ ∉ particleSweep (0 + 2100) [pQ] :=
  particle_retirement [pQ] pQ 0 (by simp) rfl
    (by intro q hq _; simpa using hq)

/-! ### Counting grab commands over a run -/

theorem grabCount_nil : grabCount [] = 0 := rfl

theorem grabCount_append (l1 l2 : List Command) :
    grabCount (l1 ++ l2) = grabCount l1 + grabCount l2 := by
  simp [grabCount, List.countP_append]

theorem grabCount_selectStep (c cs cg : Option String) (g : GestureType)
    (s : AppState) : grabCount (selectStep c cs cg g s).2 = 0 := by
  unfold selectStep
  split_ifs <;> simp [grabCount, List.countP_cons, List.countP_nil, isGrabCmd]

theorem grabCount_releaseStep (cg : Option String) (g p : GestureType)
    (s : AppState) : grabCount (releaseStep cg g p s).2 = 0 := by
  cases cg with
  | none => rfl
  | some gid =>
    simp only [releaseStep]
    split_ifs <;>
      simp [grabCount, List.countP_cons, List.countP_nil, isGrabCmd]

theorem grabCount_explodeStep (inp : StepInput) (bl : List BlockData)
    (cs : Option String) (g p : GestureType) (s : AppState) :
    grabCount (explodeStep inp bl cs g p s).2 = 0 := by
  cases cs with
  | none => rfl
  | some t =>
    simp only [explodeStep]
    split_ifs
    · cases hf : bl.find? (fun b => b.id == t) <;>
        simp [hf, grabCount, List.countP_cons, List.countP_nil, isGrabCmd]
    · rfl

theorem grabCount_duplicateStep (inp : StepInput) (bl : List BlockData)
    (cs : Option String) (g p : GestureType) (s : AppState) :
    grabCount (duplicateStep inp bl cs g p s).2 = 0 := by
  cases cs with
  | none => rfl
  | some t =>
    simp only [duplicateStep]
    split_ifs
    · cases hf : bl.find? (fun b => b.id == t) <;>
        simp [hf, grabCount, List.countP_cons, List.countP_nil, isGrabCmd]
    · rfl

theorem grabCount_grabStep (cs : Option String) (g p : GestureType)
    (s : AppState) :
    grabCount (grabStep cs g p s).2 =
      if truthy cs = true ∧ g = GestureType.PINCH ∧ p ≠ GestureType.PINCH
      then 1 else 0 := by
  cases cs with
  | none => simp [grabStep, truthy, grabCount_nil]
  | some t =>
    simp only [grabStep]
    by_cases h : t ≠ "" ∧ g = GestureType.PINCH ∧ p ≠ GestureType.PINCH
    · rw [if_pos h, if_pos ⟨truthy_some h.1, h.2.1, h.2.2⟩]
      simp [grabCount, List.countP_cons, List.countP_nil, isGrabCmd]
    · rw [if_neg h, if_neg ?hc]
      · rfl
      case hc =>
        rintro ⟨ht, h2, h3⟩
        refine h ⟨?_, h2, h3⟩
        simpa [truthy] using ht

theorem processFrame_fst_present {f : Frame} {p : GestureType} {s : AppState}
    (hp : f.present = true) : (processFrame f p s).1 = f.gesture := by
  unfold processFrame
  simp only [interactionStep, setHandState, hp, Bool.true_eq_false, if_false]

theorem processFrame_grabCount {f : Frame} {p : GestureType} {s : AppState}
    (hp : f.present = true) :
    grabCount (processFrame f p s).2.2 =
      if truthy s.selectedBlockId = true ∧ f.gesture = GestureType.PINCH ∧
         p ≠ GestureType.PINCH then 1 else 0 := by
  unfold processFrame
  simp only [interactionStep, setHandState, hp, Bool.true_eq_false, if_false]
  rw [grabCount_append, grabCount_append, grabCount_append, grabCount_append]
  rw [grabCount_selectStep, grabCount_releaseStep, grabCount_explodeStep,
    grabCount_duplicateStep, grabCount_grabStep]
  simp

/-! ### Repeated gestures fire no edge command -/

theorem grabStep_same (cs : Option String) (g : GestureType) (s : AppState) :
    grabStep cs g g s = (s, []) := by
  cases cs with
  | none => rfl
  | some t =>
    simp only [grabStep]
    rw [if_neg]
    rintro ⟨-, h2, h3⟩
    exact h3 h2

theorem releaseStep_same (cg : Option String) (g : GestureType)
    (s : AppState) : releaseStep cg g g s = (s, []) := by
  cases cg with
  | none => rfl
  | some t =>
    simp only [releaseStep]
    rw [if_neg]
    rintro ⟨-, h2, h3⟩
    exact h3 h2

theorem explodeStep_same (inp : StepInput) (bl : List BlockData)
    (cs : Option String) (g : GestureType) (s : AppState) :
    explodeStep inp bl cs g g s = (s, []) := by
  cases cs with
  | none => rfl
  | some t =>
    simp only [explodeStep]
    rw [if_neg]
    rintro ⟨-, h2, h3⟩
    exact h3 h2

theorem duplicateStep_same (inp : StepInput) (bl : List BlockData)
    (cs : Option String) (g : GestureType) (s : AppState) :
    duplicateStep inp bl cs g g s = (s, []) := by
  cases cs with
  | none => rfl
  | some t =>
    simp only [duplicateStep]
    rw [if_neg]
    rintro ⟨-, h2, h3⟩
    exact h3 h2

theorem edgeFilter_selectStep (c cs cg : Option String) (g : GestureType)
    (s : AppState) : (selectStep c cs cg g s).2.filter isEdgeCmd = [] := by
  unfold selectStep
  split_ifs <;> simp [isEdgeCmd]

/-- When the frame's gesture equals the previous frame's, none of the four
edge-triggered commands (grab, release, explode, duplicate) fires. -/
theorem repeat_gesture_no_edge (inp : StepInput) (q : GestureType)
    (s : AppState) (h : s.gesture = q) :
    ((interactionStep inp q s).2.2).filter isEdgeCmd = [] := by
  by_cases hp : s.handPresent = true
  · cases q with
    | NONE =>
      rw [interactionStep_none hp h]
      exact edgeFilter_selectStep _ _ _ _ _
    | OPEN_PALM =>
      cases ht : truthy s.grabbedBlockId with
      | false =>
        rw [interactionStep_palm_free hp h ht]
        exact edgeFilter_selectStep _ _ _ _ _
      | true =>
        rw [interactionStep_palm_grabbed hp h ht, releaseStep_same]
        rfl
    | PINCH =>
      rw [interactionStep_pinch hp h, grabStep_same]
      rfl
    | FIST =>
      rw [interactionStep_fist hp h, explodeStep_same]
      rfl
    | THUMBS_UP =>
      rw [interactionStep_thumbs hp h, duplicateStep_same]
      rfl
    | WAVE =>
      rw [interactionStep_inert hp (Or.inl h)]
      rfl
    | POINTING_UP =>
      rw [interactionStep_inert hp (Or.inr h)]
      rfl
  · have hp2 : s.handPresent = false := by
      revert hp; cases s.handPresent <;> simp
    rw [interactionStep_absent hp2]
    rfl

/-- Claim C2: over any run of the per-frame gesture sequence
[NONE, PINCH, PINCH, PINCH, NONE, PINCH] with the hand present and an
object selected on every frame, exactly two grab commands are issued (one
per rising PINCH edge); and in general a frame whose gesture equals the
previous frame's fires no edge-triggered command. -/
theorem edge_detection_two_grabs
    (p0 : GestureType) (s0 : AppState) (f1 f2 f3 f4 f5 f6 : Frame)
    (hp1 : f1.present = true) (hp2 : f2.present = true)
    (hp3 : f3.present = true) (hp4 : f4.present = true)
    (hp5 : f5.present = true) (hp6 : f6.present = true)
    (hg1 : f1.gesture = GestureType.NONE)
    (hg2 : f2.gesture = GestureType.PINCH)
    (hg3 : f3.gesture = GestureType.PINCH)
    (hg4 : f4.gesture = GestureType.PINCH)
    (hg5 : f5.gesture = GestureType.NONE)
    (hg6 : f6.gesture = GestureType.PINCH)
    (hs1 : truthy s0.selectedBlockId = true)
    (hs2 : truthy ((runFrames [f1] p0 s0).2.1).selectedBlockId = true)
    (hs3 : truthy ((runFrames [f1, f2] p0 s0).2.1).selectedBlockId = true)
    (hs4 : truthy ((runFrames [f1, f2, f3] p0 s0).2.1).selectedBlockId = true)
    (hs5 : truthy ((runFrames [f1, f2, f3, f4] p0 s0).2.1).selectedBlockId = true)
    (hs6 : truthy ((runFrames [f1, f2, f3, f4, f5] p0 s0).2.1).selectedBlockId = true) :
    grabCount (runFrames [f1, f2, f3, f4, f5, f6] p0 s0).2.2 = 2 ∧
    (∀ (inp : StepInput) (q : GestureType) (s : AppState), s.gesture = q →
      ((interactionStep inp q s).2.2).filter isEdgeCmd = []) := by
  refine ⟨?_, fun inp q s h => repeat_gesture_no_edge inp q s h⟩
  simp only [runFrames] at hs2 hs3 hs4 hs5 hs6 ⊢
  rw [processFrame_fst_present hp1] at hs3 hs4 hs5 hs6 ⊢
  rw [hg1] at hs3 hs4 hs5 hs6 ⊢
  rw [processFrame_fst_present hp2] at hs4 hs5 hs6 ⊢
  rw [hg2] at hs4 hs5 hs6 ⊢
  rw [processFrame_fst_present hp3] at hs5 hs6 ⊢
  rw [hg3] at hs5 hs6 ⊢
  rw [processFrame_fst_present hp4] at hs6 ⊢
  rw [hg4] at hs6 ⊢
  rw [processFrame_fst_present hp5, hg5]
  rw [grabCount_append, grabCount_append, grabCount_append, grabCount_append,
    grabCount_append, grabCount_append]
  rw [processFrame_grabCount hp1, processFrame_grabCount hp2,
    processFrame_grabCount hp3, processFrame_grabCount hp4,
    processFrame_grabCount hp5, processFrame_grabCount hp6]
  simp [hg1, hg2, hg3, hg4, hg5, hg6, hs1, hs2, hs3, hs4, hs5, hs6,
    grabCount_nil]

/-- Witness for C2: a concrete six-frame run over the selected block `bA`
issuing exactly two grab commands. -/
theorem edge_detection_two_grabs_w :
    grabCount (runFrames [frameOf GestureType.NONE, frameOf GestureType.PINCH,
      frameOf GestureType.PINCH, frameOf GestureType.PINCH,
      frameOf GestureType.NONE, frameOf GestureType.PINCH]
      GestureType.WAVE sSel).2.2 = 2 ∧
    (∀ (inp : StepInput) (q : GestureType) (s : AppState), s.gesture = q →
      ((interactionStep inp q s).2.2).filter isEdgeCmd = []) :=
  edge_detection_two_grabs GestureType.WAVE sSel
    (frameOf GestureType.NONE) (frameOf GestureType.PINCH)
    (frameOf GestureType.PINCH) (frameOf GestureType.PINCH)
    (frameOf GestureType.NONE) (frameOf GestureType.PINCH)
    rfl rfl rfl rfl rfl rfl rfl rfl rfl rfl rfl rfl
    (by decide) (by decide) (by decide) (by decide) (by decide) (by decide)

/-! ### The grab-coherence invariant (claim C1) -/

theorem selectStep_grabbed_eq (c cs cg : Option String) (g : GestureType)
    (s : AppState) :
    (selectStep c cs cg g s).1.grabbedBlockId = s.grabbedBlockId := by
  unfold selectStep
  split_ifs <;> rfl

theorem grabCoherent_step (inp : StepInput) (p : GestureType) (s : AppState)
    (h : GrabCoherent s) : GrabCoherent (interactionStep inp p s).2.1 := by
  by_cases hp : s.handPresent = true
  · cases hgg : s.gesture with
    | NONE =>
      rw [interactionStep_none hp hgg]
      rcases h with hnone | ⟨sid, hne, hgr, hsel⟩
      · left
        rw [selectStep_grabbed_eq]
        exact hnone
      · rw [selectStep_id_of_grabbed (by rw [hgr]; exact truthy_some hne)]
        exact Or.inr ⟨sid, hne, hgr, hsel⟩
    | OPEN_PALM =>
      rcases h with hnone | ⟨sid, hne, hgr, hsel⟩
      · have ht : truthy s.grabbedBlockId = false := by rw [hnone]; rfl
        rw [interactionStep_palm_free hp hgg ht]
        left
        rw [selectStep_grabbed_eq]
        exact hnone
      · have ht : truthy s.grabbedBlockId = true := by
          rw [hgr]; exact truthy_some hne
        rw [interactionStep_palm_grabbed hp hgg ht, hgr]
        simp only [releaseStep]
        split_ifs with hcond
        · left
          rfl
        · exact Or.inr ⟨sid, hne, hgr, hsel⟩
    | PINCH =>
      rw [interactionStep_pinch hp hgg]
      cases hcs : s.selectedBlockId with
      | none =>
        simp only [grabStep]
        exact h
      | some t =>
        simp only [grabStep]
        split_ifs with hcond
        · exact Or.inr ⟨t, hcond.1, rfl, hcs⟩
        · exact h
    | FIST =>
      rw [interactionStep_fist hp hgg]
      cases hcs : s.selectedBlockId with
      | none =>
        simp only [explodeStep]
        exact h
      | some t =>
        simp only [explodeStep]
        split_ifs with hcond
        · cases hf : s.blocks.find? (fun b => b.id == t) with
          | none =>
            simp only [hf]
            exact h
          | some blk =>
            simp only [hf]
            left
            rfl
        · exact h
    | THUMBS_UP =>
      rw [interactionStep_thumbs hp hgg]
      cases hcs : s.selectedBlockId with
      | none =>
        simp only [duplicateStep]
        exact h
      | some t =>
        simp only [duplicateStep]
        split_ifs with hcond
        · cases hf : s.blocks.find? (fun b => b.id == t) with
          | none =>
            simp only [hf]
            exact h
          | some blk =>
            simp only [hf]
            exact h
        · exact h
    | WAVE =>
      rw [interactionStep_inert hp (Or.inl hgg)]
      exact h
    | POINTING_UP =>
      rw [interactionStep_inert hp (Or.inr hgg)]
      exact h
  · have hp2 : s.handPresent = false := by
      revert hp; cases s.handPresent <;> simp
    rw [interactionStep_absent hp2]
    left
    rfl

theorem reachable_grabCoherent {p : GestureType} {s : AppState}
    (h : Reachable p s) : GrabCoherent s := by
  induction h with
  | init p s h1 h2 => exact Or.inl h2
  | handUpdate p s present x y g rot h ih => exact ih
  | pan p s d h ih => exact ih
  | drag p s id pos rot h ih => exact ih
  | sweep p s id h ih => exact ih
  | frame p s inp h ih => exact grabCoherent_step inp p s ih

/-- Claim C1: in every state reachable by the program's transitions from a
start state with both pointers null, a non-null grabbedBlockId always equals
selectedBlockId. -/
theorem grabbed_implies_selected (p : GestureType) (s : AppState)
    (h : Reachable p s) (hg : s.grabbedBlockId ≠ none) :
    s.selectedBlockId = s.grabbedBlockId := by
  rcases reachable_grabCoherent h with h0 | ⟨sid, _, hgr, hsel⟩
  · exact absurd h0 hg
  · rw [hsel, hgr]

/-- Witness for C1: a concrete reachable state (select `bA`, then a PINCH
edge grabs it) with a non-null grab pointer. -/
theorem grabbed_implies_selected_w :
    (interactionStep inpNear
      (interactionStep inpNear GestureType.WAVE sBase).1
      (setHandState true 0 0 GestureType.PINCH 0
        (interactionStep inpNear GestureType.WAVE sBase).2.1)).2.1.selectedBlockId =
    (interactionStep inpNear
      (interactionStep inpNear GestureType.WAVE sBase).1
      (setHandState true 0 0 GestureType.PINCH 0
        (interactionStep inpNear GestureType.WAVE sBase).2.1)).2.1.grabbedBlockId :=
  grabbed_implies_selected _ _
    (Reachable.frame _ _ inpNear
      (Reachable.handUpdate _ _ true 0 0 GestureType.PINCH 0
        (Reachable.frame _ _ inpNear (Reachable.init _ _ rfl rfl))))
    (by decide)

/-! ### The no-dangling-pointer invariant (claim C10) -/

theorem closestScan_fst (d : BlockData → ℚ) (l : List BlockData) :
    ∀ (acc : Option String × Option ℚ) (sid : String),
      (l.foldl (closestScan d) acc).1 = some sid →
      acc.1 = some sid ∨ ∃ b ∈ l, b.id = sid := by
  induction l with
  | nil =>
    intro acc sid h
    exact Or.inl h
  | cons b l ih =>
    intro acc sid h
    rcases ih (closestScan d acc b) sid h with h1 | h2
    · unfold closestScan at h1
      dsimp only at h1
      split_ifs at h1
      · right
        refine ⟨b, List.mem_cons_self b l, ?_⟩
        simpa using h1
      · exact Or.inl h1
    · rcases h2 with ⟨b2, hb2, hid⟩
      exact Or.inr ⟨b2, List.mem_cons_of_mem b hb2, hid⟩

theorem closestBlockId_mem {d : BlockData → ℚ} {bl : List BlockData}
    {sid : String} (h : closestBlockId d bl = some sid) :
    ∃ b ∈ bl, b.id = sid := by
  rcases closestScan_fst d bl (none, none) sid h with h1 | h2
  · exact absurd h1 (by simp)
  · exact h2

theorem selectStep_fst_cases (c cs cg : Option String) (g : GestureType)
    (s : AppState) :
    (selectStep c cs cg g s).1 = s ∨
    (selectStep c cs cg g s).1 = setSelectedBlock c s := by
  unfold selectStep
  split_ifs <;> simp

theorem releaseStep_fst_cases (cg : Option String) (g p : GestureType)
    (s : AppState) :
    (releaseStep cg g p s).1 = s ∨
    (releaseStep cg g p s).1 = setGrabbedBlock none s := by
  cases cg with
  | none => exact Or.inl rfl
  | some gid =>
    simp only [releaseStep]
    split_ifs <;> simp

theorem updateBlockPosition_keeps_id (id : String) (pos : Vec3)
    (rot : Option Vec3) (s : AppState) (sid : String)
    (h : ∃ b ∈ s.blocks, b.id = sid) :
    ∃ b ∈ (updateBlockPosition id pos rot s).blocks, b.id = sid := by
  rcases h with ⟨b, hb, hid⟩
  refine ⟨_, List.mem_map_of_mem _ hb, ?_⟩
  dsimp only
  split_ifs <;> simp [hid]

theorem pointersLive_step (inp : StepInput) (p : GestureType) (s : AppState)
    (h : PointersLive s) : PointersLive (interactionStep inp p s).2.1 := by
  have hsel : ∀ (s2 : AppState), s2.blocks = s.blocks →
      s2.selectedBlockId = closestBlockId inp.distSq s.blocks ∨
      s2.selectedBlockId = s.selectedBlockId →
      s2.grabbedBlockId = s.grabbedBlockId → PointersLive s2 := by
    intro s2 hbl hs hg
    constructor
    · intro sid hs2
      rw [hbl]
      rcases hs with hs | hs
      · exact closestBlockId_mem (hs ▸ hs2)
      · exact h.1 sid (hs ▸ hs2)
    · intro gid hg2
      rw [hbl]
      exact h.2 gid (hg ▸ hg2)
  by_cases hp : s.handPresent = true
  · cases hgg : s.gesture with
    | NONE =>
      rw [interactionStep_none hp hgg]
      rcases selectStep_fst_cases (closestBlockId inp.distSq s.blocks)
        s.selectedBlockId s.grabbedBlockId GestureType.NONE s with hc | hc
      · rw [hc]
        exact h
      · rw [hc]
        exact hsel _ rfl (Or.inl rfl) rfl
    | OPEN_PALM =>
      cases ht : truthy s.grabbedBlockId with
      | false =>
        rw [interactionStep_palm_free hp hgg ht]
        rcases selectStep_fst_cases (closestBlockId inp.distSq s.blocks)
          s.selectedBlockId s.grabbedBlockId GestureType.OPEN_PALM s with hc | hc
        · rw [hc]
          exact h
        · rw [hc]
          exact hsel _ rfl (Or.inl rfl) rfl
      | true =>
        rw [interactionStep_palm_grabbed hp hgg ht]
        rcases releaseStep_fst_cases s.grabbedBlockId GestureType.OPEN_PALM p s
          with hc | hc
        · rw [hc]
          exact h
        · rw [hc]
          constructor
          · intro sid hs2
            exact h.1 sid hs2
          · intro gid hg2
            exact absurd hg2 (by simp [setGrabbedBlock])
    | PINCH =>
      rw [interactionStep_pinch hp hgg]
      cases hcs : s.selectedBlockId with
      | none =>
        simp only [grabStep]
        exact h
      | some t =>
        simp only [grabStep]
        split_ifs with hcond
        · constructor
          · intro sid hs2
            exact h.1 sid hs2
          · intro gid hg2
            have hgt : t = gid := by
              simpa [setGrabbedBlock] using hg2
            subst hgt
            exact h.1 t hcs
        · exact h
    | FIST =>
      rw [interactionStep_fist hp hgg]
      cases hcs : s.selectedBlockId with
      | none =>
        simp only [explodeStep]
        exact h
      | some t =>
        simp only [explodeStep]
        split_ifs with hcond
        · cases hf : s.blocks.find? (fun b => b.id == t) with
          | none =>
            simp only [hf]
            exact h
          | some blk =>
            simp only [hf]
            constructor
            · intro sid hs2
              exact absurd hs2 (by simp [setSelectedBlock])
            · intro gid hg2
              exact absurd hg2 (by simp [setSelectedBlock, setGrabbedBlock])
        · exact h
    | THUMBS_UP =>
      rw [interactionStep_thumbs hp hgg]
      cases hcs : s.selectedBlockId with
      | none =>
        simp only [duplicateStep]
        exact h
      | some t =>
        simp only [duplicateStep]
        split_ifs with hcond
        · cases hf : s.blocks.find? (fun b => b.id == t) with
          | none =>
            simp only [hf]
            exact h
          | some blk =>
            simp only [hf]
            constructor
            · intro sid hs2
              rcases h.1 sid hs2 with ⟨b, hb, hid⟩
              exact ⟨b, List.mem_append_left _ hb, hid⟩
            · intro gid hg2
              rcases h.2 gid hg2 with ⟨b, hb, hid⟩
              exact ⟨b, List.mem_append_left _ hb, hid⟩
        · exact h
    | WAVE =>
      rw [interactionStep_inert hp (Or.inl hgg)]
      exact h
    | POINTING_UP =>
      rw [interactionStep_inert hp (Or.inr hgg)]
      exact h
  · have hp2 : s.handPresent = false := by
      revert hp; cases s.handPresent <;> simp
    rw [interactionStep_absent hp2]
    constructor
    · intro sid hs2
      exact absurd hs2 (by simp)
    · intro gid hg2
      exact absurd hg2 (by simp)

theorem reachable_pointersLive {p : GestureType} {s : AppState}
    (h : Reachable p s) : PointersLive s := by
  induction h with
  | init p s h1 h2 =>
    constructor
    · intro sid hs
      rw [h1] at hs
      exact absurd hs (by simp)
    · intro gid hg
      rw [h2] at hg
      exact absurd hg (by simp)
  | handUpdate p s present x y g rot h ih => exact ih
  | pan p s d h ih => exact ih
  | drag p s id pos rot h ih =>
    exact ⟨fun sid hs => updateBlockPosition_keeps_id id pos rot s sid (ih.1 sid hs),
           fun gid hg => updateBlockPosition_keeps_id id pos rot s gid (ih.2 gid hg)⟩
  | sweep p s id h ih => exact ih
  | frame p s inp h ih => exact pointersLive_step inp p s ih

/-- Claim C10: in every reachable state, a non-null selectedBlockId or
grabbedBlockId names a block present in the block collection. -/
theorem no_dangling_pointers (p : GestureType) (s : AppState)
    (h : Reachable p s) :
    (∀ sid, s.selectedBlockId = some sid → ∃ b ∈ s.blocks, b.id = sid) ∧
    (∀ gid, s.grabbedBlockId = some gid → ∃ b ∈ s.blocks, b.id = gid) :=
  reachable_pointersLive h

/-- Witness for C10: after one frame that selects `bA`, the selection names
a block present in the collection. -/
theorem no_dangling_pointers_w :
    ∃ b ∈ (interactionStep inpNear GestureType.WAVE sBase).2.1.blocks,
      b.id = idA :=
  (no_dangling_pointers _ _
    (Reachable.frame _ _ inpNear (Reachable.init _ _ rfl rfl))).1 idA
    (by decide)

end Cosmic
